import Mathlib

/-!
Verification of the jigsaw native module-resolver
(`src/share/native/common/jigsaw.c`) against its specification.

The development shallowly embeds the C code:

* the binary configuration reader `load_config` / `checkFileHeader` is a
  parser over a byte stream (`List Nat`, one element per file byte);
  a short read (the C code `assert`s on those) is modelled as `none`,
  a returned `jint` error code as `Except.error`;
* the in-memory structures (`jconfig`, `jcontext`, `jmoduleEntry`,
  `struct ModuleIdEntry`, `struct library`) become Lean structures;
  C strings become `String`s (at the byte level, NUL-free byte lists);
  pointer handles become indices;
* the zip-container probe `find_class_entry` (which returns either `0` or
  `JIGSAW_ERROR_CLASS_NOT_FOUND`) is abstracted by a boolean oracle `has`
  saying which modules' containers yield the requested entry;
* the potentially non-terminating alias-chase `while` loop of
  `find_declaring_module_dir` is modelled with an explicit fuel parameter,
  `none` meaning "the loop has not exited within `fuel` iterations";
  quantifying over all fuels expresses genuine non-termination.
-/

namespace Jigsaw

/-! ## Constants from jigsaw.c and jigsaw.h -/

def MAGIC : Nat := 0xcafe00fa
def LIBRARY_HEADER : Nat := 0
def LIBRARY_MODULE_CONFIG : Nat := 2
def LIBRARY_MODULE_IDS : Nat := 8
def MAJOR_VERSION : Nat := 0
def MINOR_VERSION : Nat := 1

def JDK_BASE : String := "jdk.base"
def JDK_CLASSPATH : String := "jdk.classpath"
def CONFIG : String := "config"

/-- File separator; the non-Windows branch of the source. -/
def separator : String := "/"

def JIGSAW_ERROR_INVALID_MODULE_LIBRARY : Int := 101
def JIGSAW_ERROR_BAD_FILE_HEADER : Int := 102
def JIGSAW_ERROR_BAD_CONFIG : Int := 103
def JIGSAW_ERROR_OPEN_CONFIG : Int := 104
def JIGSAW_ERROR_INVALID_MODULE : Int := 107
def JIGSAW_ERROR_INVALID_CONTEXT : Int := 108
def JIGSAW_ERROR_MODULE_LIBRARY_NOT_FOUND : Int := 109
def JIGSAW_ERROR_CONTEXTS_NOT_LOADED : Int := 110
def JIGSAW_ERROR_MODULE_NOT_FOUND : Int := 111
def JIGSAW_ERROR_BASE_MODULE_NOT_FOUND : Int := 112
def JIGSAW_ERROR_CLASS_NOT_FOUND : Int := 113
def JIGSAW_ERROR_INVALID_MODULE_IDS : Int := 116
def JIGSAW_ERROR_BUFFER_TOO_SHORT : Int := 202

/-! ## Logical data model (jmoduleEntry / jcontext / jconfig)

A module handle is the pair (context index, module index); the global
`config` pointer becomes an explicit `JConfig` value. -/

structure JModule where
  module_name : String
  module_version : Option String := none
  libpath : String := ""
  deriving DecidableEq, Repr

structure JContext where
  name : String := ""
  bootstrap : Bool := false
  modules : List JModule := []
  deriving DecidableEq, Repr

structure JConfig where
  classpath_mode : Bool
  path : String
  contexts : List JContext
  /-- index of the base context (`config->base`) -/
  base : Nat
  /-- index of the base module inside the base context (`config->base_module`) -/
  base_module : Nat
  deriving DecidableEq, Repr

/-! ## parse_module_id, version_compare, candidate selection (lines 464-569)

`parse_module_id` copies the characters before the first `@` into `name`
and everything after that first `@` (including later `@`s) into
`version`; with no `@` the version is empty. -/

def parse_module_id (mid : String) : String × String :=
  (String.mk (mid.toList.takeWhile (fun c => c ≠ '@')),
   String.mk ((mid.toList.dropWhile (fun c => c ≠ '@')).drop 1))

/-- Lines 464-467: version comparison is a stub that always reports the
second argument as newer. -/
def version_compare (_v1 _v2 : String) : Int := -1

/-- Lines 543-550: the query's bare name is the part of `midq` before the
first `@`. -/
def queryName (midq : String) : String :=
  String.mk (midq.toList.takeWhile (fun c => c ≠ '@'))

structure ModuleIdEntry where
  mid : String
  providingModuleId : String
  deriving DecidableEq, Repr

/-- Lines 551-565: scan the dictionary; whenever the parsed entry name
equals the query name, keep the entry judged newer by `version_compare`
(which always says "newer", so every later match replaces the earlier
one).  The accumulator is the pair (chosen entry, its version string),
mirroring the C locals `entry` / `module_version`. -/
def selectCandidate (dict : List ModuleIdEntry) (qname : String) :
    Option ModuleIdEntry :=
  (dict.foldl
    (fun (acc : Option ModuleIdEntry × String) e =>
      let mn := (parse_module_id e.mid).1
      let version := (parse_module_id e.mid).2
      if mn = qname then
        if version_compare acc.2 version < 0 then (some e, version) else acc
      else acc)
    ((none : Option ModuleIdEntry), "")).1

/-- Lines 571-579, one iteration of the alias-chase `while` body: find the
first dictionary entry whose id equals the current entry's providing id;
if none exists the entry is left unchanged (and the C loop then spins
forever). -/
def chaseStep (dict : List ModuleIdEntry) (e : ModuleIdEntry) : ModuleIdEntry :=
  match dict.find? (fun x => x.mid = e.providingModuleId) with
  | some x => x
  | none => e

/-- Lines 571-579, the alias-chase `while` loop, with explicit fuel:
`none` means the loop has not reached a fixed point within `fuel`
iterations (the C code would still be looping). -/
def chase (dict : List ModuleIdEntry) (fuel : Nat) (e : ModuleIdEntry) :
    Option ModuleIdEntry :=
  if e.mid = e.providingModuleId then some e
  else
    match fuel with
    | 0 => none
    | f + 1 => chase dict f (chaseStep dict e)

/-- Lines 493-584, `find_declaring_module_dir`, at the level of the parsed
`%mids` dictionary.  `mids = none` models an open/header failure on the
`%mids` file (any of lines 515-531), which the C code reports as
`JIGSAW_ERROR_INVALID_MODULE_IDS`.  The outer `Option` is `none` when the
alias chase does not terminate within `fuel`.  The output buffer
(`module_dir`, `JVM_MAXPATHLEN` bytes) is assumed large enough, so the
`jio_snprintf` of line 581 is plain concatenation. -/
def find_declaring_module_dir (libpath : String)
    (mids : Option (List ModuleIdEntry)) (midq : String) (fuel : Nat) :
    Option (Except Int String) :=
  match mids with
  | none => some (Except.error JIGSAW_ERROR_INVALID_MODULE_IDS)
  | some dict =>
    match selectCandidate dict (queryName midq) with
    | none => some (Except.error JIGSAW_ERROR_MODULE_NOT_FOUND)
    | some e =>
      match chase dict fuel e with
      | none => none
      | some t =>
        let nv := parse_module_id t.mid
        some (Except.ok (libpath ++ separator ++ nv.1 ++ separator ++ nv.2))

/-! ## Library chain and find_config (lines 103-106, 591-615) -/

/-- One opened library of the chain (`struct library`): its root path and
the parsed `%mids` dictionary (`none` when opening/validating `%mids`
fails).  The C parent pointer becomes the tail of a `List LLibrary`,
self first, ancestors after. -/
structure LLibrary where
  path : String
  mids : Option (List ModuleIdEntry)

/-- Lines 591-615 `find_config`: walk the chain self-first; the first
library whose declaring-directory lookup returns 0 wins and the
configuration path is `<declaring-dir>/config`; any non-zero lookup
result moves on to the parent; exhausting the chain returns NULL
(modelled `some none`).  The outer `Option` is `none` when a lookup
diverges (fuel exhausted inside the alias chase). -/
def find_config : List LLibrary → String → Nat → Option (Option (String × String))
  | [], _, _ => some none
  | lib :: rest, midq, fuel =>
    match find_declaring_module_dir lib.path lib.mids midq fuel with
    | none => none
    | some (Except.ok mdir) => some (some (mdir ++ separator ++ CONFIG, lib.path))
    | some (Except.error _) => find_config rest midq fuel

/-! ## Base-context scan of JDK_LoadContexts (lines 814-831) -/

/-- Lines 821-827, the inner `for` loop: first module of the context whose
name is literally `jdk.base`. -/
def findBaseIn : Nat → List JModule → Option Nat
  | _, [] => none
  | i, m :: rest =>
    if m.module_name = JDK_BASE then some i else findBaseIn (i + 1) rest

/-- Lines 816-828, the outer `while` loop: first context containing a
`jdk.base` module, paired with that module's index. -/
def scanBaseAux : Nat → List JContext → Option (Nat × Nat)
  | _, [] => none
  | n, cx :: rest =>
    match findBaseIn 0 cx.modules with
    | some i => some (n, i)
    | none => scanBaseAux (n + 1) rest

def scanBase (cxs : List JContext) : Option (Nat × Nat) := scanBaseAux 0 cxs

/-- Lines 769-835 `JDK_LoadContexts`, after the library chain has been
opened.  `readConfig` abstracts `JVM_Open` on the configuration path plus
`load_config` (returning either the loaded contexts or the `jint` error
`load_config` would return, e.g. `JIGSAW_ERROR_OPEN_CONFIG` or
`JIGSAW_ERROR_BAD_CONFIG`).  The outer `Option` again tracks a diverging
`%mids` alias chase.  The bootstrap flags of the returned contexts are
the ones produced after `init_bootstrap_contexts` ran. -/
def JDK_LoadContexts (mlib : List LLibrary) (module_query : Option String)
    (readConfig : String → Except Int (List JContext)) (fuel : Nat) :
    Option (Except Int JConfig) :=
  let fcres :=
    match module_query with
    | some q => find_config mlib q fuel
    | none =>
      match find_config mlib JDK_CLASSPATH fuel with
      | none => none
      | some (some c) => some (some c)
      | some none => find_config mlib JDK_BASE fuel
  match fcres with
  | none => none
  | some none => some (Except.error JIGSAW_ERROR_MODULE_NOT_FOUND)
  | some (some (cfgPath, libRoot)) =>
    match readConfig cfgPath with
    | Except.error rc => some (Except.error rc)
    | Except.ok cxs =>
      match scanBase cxs with
      | none => some (Except.error JIGSAW_ERROR_BASE_MODULE_NOT_FOUND)
      | some (n, i) =>
        some (Except.ok
          { classpath_mode := module_query.isNone
            path := libRoot
            contexts := cxs
            base := n
            base_module := i })

/-! ## find_class (lines 645-685)

The walk over one context's modules.  `names` are the module names of the
context in declaration order; `bI = some b` says the context is the
currently loaded configuration's base context with base module at index
`b` (the pointer comparisons `cx == config->base` and
`m == config->base_module` become index comparisons, which is faithful
because the base module lives in the base context's own array);
`has i` abstracts `find_class_entry` on module `i` (which returns either
`0` or `JIGSAW_ERROR_CLASS_NOT_FOUND`).  The function also returns the
trace of module indices on which `find_class_entry` was invoked, so that
visiting-order claims can be stated.

The loop variable `n` starts at `-1` when the context is the base context
(with the cursor `m` on the base module), so `n` is an `Int`.  `gas`
bounds the number of iterations; since `n` strictly increases and the
loop exits once `n ≥ names.length`, `names.length + 2` gas is always
enough (proved by the characterization theorem below). -/

def fcLoopTr (names : List String) (bI : Option Nat) (has : Nat → Bool) :
    Nat → Int → Nat → List Nat × Option Nat
  | 0, _, _ => ([], none)
  | gas + 1, n, m =>
    if n < (names.length : Int) then
      if names.getD m "" = JDK_CLASSPATH then
        -- lines 666-670: skip the classpath module, advance the cursor
        fcLoopTr names bI has gas (n + 1) (n + 1).toNat
      else if has m then ([m], some m)
      else if n + 1 < (names.length : Int) then
        if bI = some (n + 1).toNat then
          -- lines 676-679: skip the base module (already visited)
          let tr := fcLoopTr names bI has gas (n + 2) (n + 2).toNat
          (m :: tr.1, tr.2)
        else
          let tr := fcLoopTr names bI has gas (n + 1) (n + 1).toNat
          (m :: tr.1, tr.2)
      else ([m], none)
    else ([], none)

/-- Lines 645-685 `find_class`, instrumented with the visit trace.  In the
base context the walk starts on the base module with `n = -1`
(lines 654-658), otherwise on module 0 with `n = 0` (lines 659-662). -/
def find_class_tr (names : List String) (bI : Option Nat) (has : Nat → Bool) :
    List Nat × Option Nat :=
  match bI with
  | some b => fcLoopTr names bI has (names.length + 2) (-1) b
  | none => fcLoopTr names bI has (names.length + 2) 0 0

/-- The module `find_class` returns (`none` = NULL). -/
def find_class (names : List String) (bI : Option Nat) (has : Nat → Bool) :
    Option Nat :=
  (find_class_tr names bI has).2

/-- Spec-side (section 4.3 of the spec): the order in which a context's
modules should be visited — the base module first when the context is the
base context, then declaration order with the base module and every
module named `jdk.classpath` skipped. -/
def visitable (names : List String) (bI : Option Nat) (i : Nat) : Bool :=
  decide (bI ≠ some i) && decide (names.getD i "" ≠ JDK_CLASSPATH)

def specOrder (names : List String) (bI : Option Nat) : List Nat :=
  match bI with
  | some b => b :: (List.range names.length).filter (visitable names bI)
  | none => (List.range names.length).filter (visitable names bI)

/-- Spec-side walk: try the candidates in order, stopping at the first
whose container yields the entry; the trace is the consulted prefix. -/
def specWalk (hit : Nat → Bool) : List Nat → List Nat × Option Nat
  | [] => ([], none)
  | i :: rest =>
    if hit i then ([i], some i)
    else
      let tr := specWalk hit rest
      (i :: tr.1, tr.2)

/-! ## JDK_FindLocalClass (lines 847-893) -/

/-- Lines 878-885, the classpath-mode fallback `for` loop over the
enumerated contexts, instrumented with the trace of context indices on
which `find_class` was invoked.  `b` is the base-context index, `has n i`
abstracts `find_class_entry` for module `i` of context `n`. -/
def cpGo (b : Nat) (has : Nat → Nat → Bool) :
    List (Nat × JContext) → List Nat × Option (Nat × Nat)
  | [] => ([], none)
  | (n, cx) :: rest =>
    if n = b ∨ cx.bootstrap = false then cpGo b has rest
    else
      match find_class (cx.modules.map (fun m => m.module_name)) none (has n) with
      | some m => ([n], some (n, m))
      | none =>
        let tr := cpGo b has rest
        (n :: tr.1, tr.2)

def classpath_fallback (cfg : JConfig) (has : Nat → Nat → Bool) :
    List Nat × Option (Nat × Nat) :=
  cpGo cfg.base has cfg.contexts.enum

/-- The module names of the base context, in declaration order. -/
def baseModuleNames (cfg : JConfig) : List String :=
  (cfg.contexts.getD cfg.base {}).modules.map (fun m => m.module_name)

/-- Lines 847-893 `JDK_FindLocalClass`.  `context` is the context handle
(`none` = NULL, `some c` = a pointer to context number `c`); the result
is the handle (context index, module index) of the module supplying the
class.  The `config == NULL` check is not modelled: a `JConfig` value is
always supplied. -/
def JDK_FindLocalClass (cfg : JConfig) (context : Option Nat)
    (has : Nat → Nat → Bool) : Except Int (Nat × Nat) :=
  let cx := match context with
    | none => cfg.base       -- lines 861-863
    | some c => c
  if cx ≠ cfg.base then Except.error JIGSAW_ERROR_INVALID_CONTEXT  -- lines 865-867
  else
    match find_class (baseModuleNames cfg) (some cfg.base_module) (has cfg.base) with
    | some m => Except.ok (cfg.base, m)
    | none =>
      if cfg.classpath_mode then
        match (classpath_fallback cfg has).2 with
        | some nm => Except.ok nm
        | none => Except.error JIGSAW_ERROR_CLASS_NOT_FOUND
      else Except.error JIGSAW_ERROR_CLASS_NOT_FOUND

/-! ## JDK_GetSystemModuleLibraryPath (lines 993-1017)

The function formats `<java_home>/lib/modules` into the caller's buffer
and returns; it performs no filesystem access at all.  To be able to
state claims about on-disk validation, the model carries a filesystem
oracle `fsHasLibraryHeader` (whether a `%jigsaw-library` header file
exists under a given path); the translated body never consults it,
because the C body never opens any file.  `zipInitOk` models the
`initialize()` call (locating the zip dynamic library), which returns
non-zero only when that library is unavailable. -/
def JDK_GetSystemModuleLibraryPath (zipInitOk : Bool)
    (java_home : Option String) (len : Nat)
    (_fsHasLibraryHeader : String → Bool) : Except Int String :=
  if zipInitOk = false then Except.error (-1)
  else
    match java_home with
    | none => Except.error JIGSAW_ERROR_MODULE_LIBRARY_NOT_FOUND
    | some jh =>
      let path := jh ++ separator ++ "lib" ++ separator ++ "modules"
      if len ≤ path.length then Except.error JIGSAW_ERROR_BUFFER_TOO_SHORT
      else Except.ok path

/-! ## Byte-level binary configuration reader (lines 203-276, 335-462)

A file is a `List Nat` of bytes.  `M α` is the reader: it consumes bytes
and produces either `none` (a short read, on which the C code `assert`s —
a fatal contract violation), or a `jint` error, or a value plus the
unconsumed rest of the stream. -/

def M (α : Type) : Type := List Nat → Option (Except Int (α × List Nat))

def mPure {α : Type} (a : α) : M α := fun s => some (Except.ok (a, s))

def mBind {α β : Type} (x : M α) (f : α → M β) : M β := fun s =>
  match x s with
  | none => none
  | some (Except.error e) => some (Except.error e)
  | some (Except.ok (a, s1)) => f a s1

def mThrow {α : Type} (e : Int) : M α := fun _ => some (Except.error e)

/-- A failed `assert` (short read / unsupported field width). -/
def mAbort {α : Type} : M α := fun _ => none

/-- `JVM_Read(fd, buf, k)` followed by `assert(len == k)`. -/
def readN (k : Nat) : M (List Nat) := fun s =>
  if k ≤ s.length then some (Except.ok (s.take k, s.drop k)) else none

/-- Lines 203-210 `convertToInt`: big-endian accumulation. -/
def convertToInt (buf : List Nat) : Nat :=
  buf.foldl (fun v b => v * 256 + b) 0

def readShort : M Nat := mBind (readN 2) (fun b => mPure (convertToInt b))

def readInt : M Nat := mBind (readN 4) (fun b => mPure (convertToInt b))

/-- Lines 239-249 `readUTF8`: a 2-byte length followed by that many bytes.
The C code NUL-terminates the malloc'd buffer; the value is the byte
list (for NUL-free content, the same observable string). -/
def readUTF8 : M (List Nat) := mBind readShort (fun size => readN size)

/-- Lines 258-276 `checkFileHeader`: read a 2- or 4-byte big-endian value
and compare; the result is the C return code (0 ok,
`JIGSAW_ERROR_BAD_FILE_HEADER` mismatch).  Any other width asserts. -/
def checkFileHeader (count : Nat) (expected : Nat) : M Int :=
  mBind
    (match count with
      | 2 => readShort
      | 4 => readInt
      | _ => mAbort)
    (fun v => mPure (if v = expected then 0 else JIGSAW_ERROR_BAD_FILE_HEADER))

/-- A `checkFileHeader` call followed by the caller's
`if (... != 0) CLOSE_FD_RETURN(fd, err)` pattern. -/
def mCheck {α : Type} (count expected : Nat) (err : Int) (next : M α) : M α :=
  mBind (checkFileHeader count expected) (fun rc => if rc = 0 then next else mThrow err)

/-- Reading a count-prefixed sequence: the body of each `for` loop over a
count read from the stream. -/
def mRepN {α : Type} (p : M α) : Nat → M (List α)
  | 0 => mPure []
  | n + 1 => mBind p (fun a => mBind (mRepN p n) (fun l => mPure (a :: l)))

/-- A 4-byte count is read into a C `int`; a value with the sign bit set
is negative there, so the subsequent `for (n = 0; n < count; n++)` loop
body runs zero times. -/
def jintIter (v : Nat) : Nat := if v < 2 ^ 31 then v else 0

/-! strtok on the module id (line 413-414): `strtok(mid, "@")` skips
leading `@`s and yields the run up to the next `@`;
`strtok(NULL, "@")` yields the following such run, or NULL. -/

def strtok1 (l : List Nat) : List Nat :=
  (l.dropWhile (fun b => b = 64)).takeWhile (fun b => b ≠ 64)

def strtok2 (l : List Nat) : Option (List Nat) :=
  let r := (((l.dropWhile (fun b => b = 64)).dropWhile (fun b => b ≠ 64)).dropWhile (fun b => b = 64))
  if r = [] then none else some (r.takeWhile (fun b => b ≠ 64))

/-- A module entry as `load_config` stores it (name and version split off
the module id, and the per-module library path override). -/
structure PModule where
  module_name : List Nat
  module_version : Option (List Nat)
  libpath : List Nat
  deriving DecidableEq, Repr

structure PContext where
  name : List Nat
  modules : List PModule
  deriving DecidableEq, Repr

structure ParsedConfig where
  contexts : List PContext
  deriving DecidableEq, Repr

/-- Lines 406-422, one module record: module id, library path, view count
and discarded view names. -/
def mReadModule : M PModule :=
  mBind readUTF8 (fun mid =>
  mBind readUTF8 (fun libpath =>
  mBind readInt (fun views =>
  mBind (mRepN readUTF8 (jintIter views)) (fun _ =>
  mPure { module_name := strtok1 mid
          module_version := strtok2 mid
          libpath := libpath }))))

/-- Lines 428-434, one local-class-map entry (discarded). -/
def mReadClassEntry : M Unit :=
  mBind readInt (fun _ => mBind readUTF8 (fun _ => mBind readInt (fun _ => mPure ())))

/-- Lines 437-441, one remote-package-map entry (discarded). -/
def mReadRemotePkg : M Unit :=
  mBind readInt (fun _ => mBind readInt (fun _ => mPure ()))

/-- Lines 450-459, one service record (discarded). -/
def mReadService : M Unit :=
  mBind readUTF8 (fun _ =>
  mBind readInt (fun nImpl =>
  mBind (mRepN readUTF8 (jintIter nImpl)) (fun _ => mPure ())))

/-- Lines 398-460, the per-context body: modules, local class map, remote
package map, suppliers, services.  Only the module list is retained. -/
def mReadContextBody : M (List PModule) :=
  mBind readInt (fun nModules =>
  mBind (mRepN mReadModule (jintIter nModules)) (fun mods =>
  mBind readInt (fun nClasses =>
  mBind (mRepN mReadClassEntry (jintIter nClasses)) (fun _ =>
  mBind readInt (fun nRemote =>
  mBind (mRepN mReadRemotePkg (jintIter nRemote)) (fun _ =>
  mBind readInt (fun nSup =>
  mBind (mRepN readInt (jintIter nSup)) (fun _ =>
  mBind readInt (fun nServ =>
  mBind (mRepN mReadService (jintIter nServ)) (fun _ =>
  mPure mods))))))))))

/-- Lines 335-462 `load_config`, applied to the opened file's byte stream
(the `JVM_Open` failure branch, `JIGSAW_ERROR_OPEN_CONFIG`, lives in the
caller-level model).  Trailing bytes after the last context are ignored,
as in the source. -/
def load_config (s : List Nat) : Option (Except Int (ParsedConfig × List Nat)) :=
  (mCheck 4 MAGIC JIGSAW_ERROR_BAD_CONFIG
  (mCheck 2 LIBRARY_MODULE_CONFIG JIGSAW_ERROR_BAD_CONFIG
  (mCheck 2 MAJOR_VERSION JIGSAW_ERROR_BAD_CONFIG
  (mCheck 2 MINOR_VERSION JIGSAW_ERROR_BAD_CONFIG
  (mBind readInt (fun nRoots =>
  mBind (mRepN readUTF8 (jintIter nRoots)) (fun _ =>
  mBind readInt (fun nContexts =>
  mBind (mRepN readUTF8 (jintIter nContexts)) (fun names =>
  mBind readInt (fun nPkgs =>
  mBind (mRepN readUTF8 (jintIter nPkgs)) (fun _ =>
  mBind (mRepN mReadContextBody (jintIter nContexts)) (fun bodies =>
  mPure { contexts :=
            List.zipWith (fun nm mods => { name := nm, modules := mods }) names bodies })))))))))))) s

/-! ## Round-trip encoder (writes the format of section 4.1 of the spec) -/

def encShort (v : Nat) : List Nat := [v / 256, v % 256]

def encInt (v : Nat) : List Nat :=
  [v / 16777216, v / 65536 % 256, v / 256 % 256, v % 256]

def encUTF8 (s : List Nat) : List Nat := encShort s.length ++ s

structure EncModule where
  name : List Nat
  version : List Nat
  libpath : List Nat
  views : List (List Nat)

structure EncService where
  sname : List Nat
  impls : List (List Nat)

structure EncContext where
  cname : List Nat
  modules : List EncModule
  localClasses : List (Nat × List Nat × Nat)
  remotePkgs : List (Nat × Nat)
  suppliers : List Nat
  services : List EncService

structure EncConfig where
  roots : List (List Nat)
  pkgs : List (List Nat)
  contexts : List EncContext

def encModule (m : EncModule) : List Nat :=
  encUTF8 (m.name ++ 64 :: m.version) ++ encUTF8 m.libpath ++
  encInt m.views.length ++ (m.views.map encUTF8).flatten

def encClassEntry (e : Nat × List Nat × Nat) : List Nat :=
  encInt e.1 ++ encUTF8 e.2.1 ++ encInt e.2.2

def encRemotePkg (e : Nat × Nat) : List Nat := encInt e.1 ++ encInt e.2

def encService (sv : EncService) : List Nat :=
  encUTF8 sv.sname ++ encInt sv.impls.length ++ (sv.impls.map encUTF8).flatten

def encContextBody (cx : EncContext) : List Nat :=
  encInt cx.modules.length ++ (cx.modules.map encModule).flatten ++
  encInt cx.localClasses.length ++ (cx.localClasses.map encClassEntry).flatten ++
  encInt cx.remotePkgs.length ++ (cx.remotePkgs.map encRemotePkg).flatten ++
  encInt cx.suppliers.length ++ (cx.suppliers.map encInt).flatten ++
  encInt cx.services.length ++ (cx.services.map encService).flatten

def encConfig (c : EncConfig) : List Nat :=
  encInt MAGIC ++ encShort LIBRARY_MODULE_CONFIG ++
  encShort MAJOR_VERSION ++ encShort MINOR_VERSION ++
  encInt c.roots.length ++ (c.roots.map encUTF8).flatten ++
  encInt c.contexts.length ++ (c.contexts.map (fun cx => encUTF8 cx.cname)).flatten ++
  encInt c.pkgs.length ++ (c.pkgs.map encUTF8).flatten ++
  (c.contexts.map encContextBody).flatten

/-! Well-formedness of the data fed to the encoder: strings fit the
2-byte length prefix and are NUL-free file bytes; module names and
versions are non-empty and `@`-free (64 is the `@` byte) so that the
`name@version` id splits back; counts fit a non-negative C `int`. -/

def WFStr (s : List Nat) : Prop :=
  s.length < 65536 ∧ ∀ b ∈ s, b < 256 ∧ b ≠ 0

def WFName (s : List Nat) : Prop := WFStr s ∧ s ≠ [] ∧ 64 ∉ s

def WFModule (m : EncModule) : Prop :=
  WFName m.name ∧ WFName m.version ∧
  m.name.length + m.version.length + 1 < 65536 ∧
  WFStr m.libpath ∧ m.views.length < 2 ^ 31 ∧ ∀ v ∈ m.views, WFStr v

def WFClassEntry (e : Nat × List Nat × Nat) : Prop :=
  e.1 < 2 ^ 32 ∧ WFStr e.2.1 ∧ e.2.2 < 2 ^ 32

def WFService (sv : EncService) : Prop :=
  WFStr sv.sname ∧ sv.impls.length < 2 ^ 31 ∧ ∀ i ∈ sv.impls, WFStr i

def WFContext (cx : EncContext) : Prop :=
  WFStr cx.cname ∧
  cx.modules.length < 2 ^ 31 ∧ (∀ m ∈ cx.modules, WFModule m) ∧
  cx.localClasses.length < 2 ^ 31 ∧ (∀ e ∈ cx.localClasses, WFClassEntry e) ∧
  cx.remotePkgs.length < 2 ^ 31 ∧ (∀ e ∈ cx.remotePkgs, e.1 < 2 ^ 32 ∧ e.2 < 2 ^ 32) ∧
  cx.suppliers.length < 2 ^ 31 ∧ (∀ x ∈ cx.suppliers, x < 2 ^ 32) ∧
  cx.services.length < 2 ^ 31 ∧ ∀ sv ∈ cx.services, WFService sv

def WFConfig (c : EncConfig) : Prop :=
  c.roots.length < 2 ^ 31 ∧ (∀ r ∈ c.roots, WFStr r) ∧
  c.pkgs.length < 2 ^ 31 ∧ (∀ p ∈ c.pkgs, WFStr p) ∧
  c.contexts.length < 2 ^ 31 ∧ ∀ cx ∈ c.contexts, WFContext cx

instance (s : List Nat) : Decidable (WFStr s) := by unfold WFStr; infer_instance

instance (s : List Nat) : Decidable (WFName s) := by unfold WFName; infer_instance

instance (m : EncModule) : Decidable (WFModule m) := by
  unfold WFModule; infer_instance

instance (e : Nat × List Nat × Nat) : Decidable (WFClassEntry e) := by
  unfold WFClassEntry; infer_instance

instance (sv : EncService) : Decidable (WFService sv) := by
  unfold WFService; infer_instance

instance (cx : EncContext) : Decidable (WFContext cx) := by
  unfold WFContext; infer_instance

instance (c : EncConfig) : Decidable (WFConfig c) := by
  unfold WFConfig; infer_instance

/-- The module entry `load_config` is expected to reconstruct from an
encoded `name@version` module record. -/
def parsedModule (m : EncModule) : PModule :=
  { module_name := m.name, module_version := some m.version, libpath := m.libpath }

/-- The configuration `load_config` is expected to reconstruct from
`encConfig c`: same context names in order and, per context, the same
ordered (name, version, library-path-override) module tuples. -/
def expectedParse (c : EncConfig) : ParsedConfig :=
  { contexts := c.contexts.map (fun cx =>
      { name := cx.cname
        modules := cx.modules.map parsedModule }) }

/-! ## Spec-side definitions and concrete witness data -/

/-- A two-element cyclic dictionary: `A -> B`, `B -> A`. -/
def cyclicDict : List ModuleIdEntry := [⟨"A", "B"⟩, ⟨"B", "A"⟩]

/-- Witness for the amended C4, on the spec's synthetic dictionary
`A -> B -> C -> C` (with `C` the concrete module `C@1`): the query `A`
resolves to `C`'s directory `lib/C/1`. -/
def dictABC : List ModuleIdEntry := [⟨"A", "B"⟩, ⟨"B", "C@1"⟩, ⟨"C@1", "C@1"⟩]

def isBaseMod (m : JModule) : Bool := decide (m.module_name = JDK_BASE)

/-- Spec-side base identification (spec section 4.3): the first context in
declaration order containing a module literally named `jdk.base` (first
match, not best match), paired with the first such module's index. -/
def specBase (cxs : List JContext) : Option (Nat × Nat) :=
  (List.findIdx? (fun cx => cx.modules.any isBaseMod) cxs).bind (fun n =>
    (List.findIdx? isBaseMod (cxs.getD n {}).modules).map (fun i => (n, i)))

/-- Witness data for C3, the spec's base-detection example
`[X(mods: a,b), Y(mods: jdk.base, c)]`. -/
def cxsW : List JContext :=
  [ { name := "X", modules := [{ module_name := "a" }, { module_name := "b" }] }
  , { name := "Y", modules := [{ module_name := "jdk.base" }, { module_name := "c" }] } ]

def mlibW : List LLibrary := [⟨"lib", some [⟨"q@1", "q@1"⟩]⟩]

def rcfW : String → Except Int (List JContext) := fun _ => Except.ok cxsW

/-- Spec-side (section 4.2 of the spec): the first library of the chain —
self before parent — whose declaring-directory lookup succeeds gives the
result, with configuration path `<declaring-dir>/config`. -/
def specFirstSuccess (mlib : List LLibrary) (q : String) (fuel : Nat) :
    Option (String × String) :=
  mlib.findSome? (fun lib =>
    match find_declaring_module_dir lib.path lib.mids q fuel with
    | some (Except.ok mdir) => some (mdir ++ separator ++ CONFIG, lib.path)
    | _ => none)

/-- Witness for C6, the spec's cross-library fallback test: a child
library with no entry for the query and a parent that declares it; the
parent's configuration path is returned. -/
def chainW : List LLibrary :=
  [⟨"child", some []⟩, ⟨"parent", some [⟨"Q@1", "Q@1"⟩]⟩]

/-- A loaded two-context configuration used to exercise C9. -/
def cfgC9 : JConfig :=
  { classpath_mode := true
    path := "lib"
    contexts :=
      [ { name := "c0", bootstrap := true, modules := [{ module_name := "jdk.base" }] }
      , { name := "c1", bootstrap := true, modules := [{ module_name := "m1" }] } ]
    base := 0
    base_module := 0 }

/-- Spec-side (section 4.3 of the spec): search the given
(index, context) pairs in order, stopping at the first context whose
`find_class` succeeds; the trace lists the contexts searched. -/
def specWalkCp (f : Nat → JContext → Option Nat) :
    List (Nat × JContext) → List Nat × Option (Nat × Nat)
  | [] => ([], none)
  | (n, cx) :: rest =>
    match f n cx with
    | some m => ([n], some (n, m))
    | none =>
      let tr := specWalkCp f rest
      (n :: tr.1, tr.2)

def cfgC7 : JConfig :=
  { classpath_mode := true
    path := "lib"
    contexts :=
      [ { name := "c0", bootstrap := true, modules := [{ module_name := "jdk.base" }] }
      , { name := "c1", bootstrap := false, modules := [{ module_name := "x" }] }
      , { name := "c2", bootstrap := true, modules := [{ module_name := "y" }] } ]
    base := 0
    base_module := 0 }

def hasC7 : Nat → Nat → Bool := fun n _ => decide (n = 2)

/-- Witness data for C1: one root-less configuration with one context
`X` holding one module `a@1` with no library-path override. -/
def encW : EncConfig :=
  { roots := []
    pkgs := []
    contexts :=
      [ { cname := [88]
          modules := [{ name := [97], version := [49], libpath := [], views := [] }]
          localClasses := []
          remotePkgs := []
          suppliers := []
          services := [] } ] }

/-! ## Helper lemmas -/

theorem getLast?_cons_eq {α : Type} (a : α) (l : List α) :
    (a :: l).getLast? = some (l.getLast?.getD a) := by
  induction l generalizing a with
  | nil => rfl
  | cons x t ih => rw [List.getLast?_cons_cons, ih x]; simp

/-- With the stubbed `version_compare` the selection step always replaces
the accumulator on a name match. -/
theorem selectCandidate_step_simp (qname : String) :
    (fun (acc : Option ModuleIdEntry × String) e =>
      let mn := (parse_module_id e.mid).1
      let version := (parse_module_id e.mid).2
      if mn = qname then
        if version_compare acc.2 version < 0 then (some e, version) else acc
      else acc)
    = fun (acc : Option ModuleIdEntry × String) e =>
        if (parse_module_id e.mid).1 = qname then (some e, (parse_module_id e.mid).2)
        else acc := by
  funext acc e
  simp only [version_compare]
  norm_num

/-- The candidate-selection fold keeps the last matching entry. -/
theorem selectCandidate_foldl (qname : String) (l : List ModuleIdEntry) :
    ∀ acc : Option ModuleIdEntry × String,
      (l.foldl
        (fun (acc : Option ModuleIdEntry × String) e =>
          if (parse_module_id e.mid).1 = qname then (some e, (parse_module_id e.mid).2)
          else acc)
        acc).1 =
      match (l.filter (fun e => decide ((parse_module_id e.mid).1 = qname))).getLast? with
      | some e => some e
      | none => acc.1 := by
  induction l with
  | nil => intro acc; rfl
  | cons e t ih =>
    intro acc
    rw [List.foldl_cons, List.filter_cons]
    by_cases h : (parse_module_id e.mid).1 = qname
    · rw [if_pos h, if_pos (by simp [h])]
      rw [ih (some e, (parse_module_id e.mid).2), getLast?_cons_eq]
      cases hlast : (t.filter (fun e => decide ((parse_module_id e.mid).1 = qname))).getLast? <;>
        simp
    · rw [if_neg h, if_neg (by simp [h])]
      exact ih acc

/-- Claim C5: with the stubbed version comparison, the candidate chosen by
`find_declaring_module_dir` before alias chasing is exactly the last
dictionary entry (in file order) whose name — the part of its id before
`@` — equals the query's name. -/
theorem selectCandidate_last_match_wins (dict : List ModuleIdEntry) (midq : String) :
    selectCandidate dict (queryName midq) =
      (dict.filter
        (fun e => decide ((parse_module_id e.mid).1 = queryName midq))).getLast? := by
  unfold selectCandidate
  rw [selectCandidate_step_simp (queryName midq), selectCandidate_foldl (queryName midq) dict]
  cases (dict.filter
      (fun e => decide ((parse_module_id e.mid).1 = queryName midq))).getLast? <;> rfl

/-! ## Claim C4: alias chasing -/

theorem chase_cyclic (fuel : Nat) :
    chase cyclicDict fuel ⟨"A", "B"⟩ = none ∧
    chase cyclicDict fuel ⟨"B", "A"⟩ = none := by
  induction fuel with
  | zero => exact ⟨by decide, by decide⟩
  | succ f ih =>
    constructor
    · rw [chase.eq_def, if_neg (by decide)]
      have hs : chaseStep cyclicDict ⟨"A", "B"⟩ = ⟨"B", "A"⟩ := by decide
      rw [hs]
      exact ih.2
    · rw [chase.eq_def, if_neg (by decide)]
      have hs : chaseStep cyclicDict ⟨"B", "A"⟩ = ⟨"A", "B"⟩ := by decide
      rw [hs]
      exact ih.1

/-- Counterexample to claim C4 as stated: for the dictionary
`A -> B, B -> A` the query `A` does select candidate `(A, B)`, yet the
alias chase never reaches a fixed point — the C `while` loop of lines
571-579 spins forever (no fuel bound ever suffices). -/
theorem chase_nontermination_counterexample :
    selectCandidate cyclicDict (queryName "A") = some ⟨"A", "B"⟩ ∧
    ¬ ∃ fuel t, chase cyclicDict fuel ⟨"A", "B"⟩ = some t := by
  refine ⟨by decide, ?_⟩
  rintro ⟨fuel, t, h⟩
  rw [(chase_cyclic fuel).1] at h
  exact Option.noConfusion h

theorem chase_of_reaches (dict : List ModuleIdEntry) :
    ∀ (k : Nat) (fuel : Nat) (e : ModuleIdEntry), k ≤ fuel →
      ((chaseStep dict)^[k] e).mid = ((chaseStep dict)^[k] e).providingModuleId →
      ∃ t, chase dict fuel e = some t ∧ t.mid = t.providingModuleId := by
  intro k
  induction k with
  | zero =>
    intro fuel e _ hterm
    simp only [Function.iterate_zero, id_eq] at hterm
    exact ⟨e, by rw [chase.eq_def, if_pos hterm], hterm⟩
  | succ j ih =>
    intro fuel e hk hterm
    by_cases he : e.mid = e.providingModuleId
    · exact ⟨e, by rw [chase.eq_def, if_pos he], he⟩
    · match fuel, hk with
      | f + 1, hk =>
        rw [Function.iterate_succ_apply] at hterm
        obtain ⟨t, ht, htt⟩ := ih f (chaseStep dict e) (by omega) hterm
        exact ⟨t, by rw [chase.eq_def, if_neg he]; exact ht, htt⟩

/-- Claim C4, amended: whenever iterating the alias-lookup step from the
selected candidate reaches a fixed point within `k ≤ fuel` steps (true in
particular for every acyclic, fully-present alias chain), the chase
terminates at a terminal entry (providing-id equals id) and the declaring
directory is `<library-root>/<name>/<version>` of that terminal entry. -/
theorem find_declaring_module_dir_terminal (libpath : String)
    (dict : List ModuleIdEntry) (midq : String) (k fuel : Nat) (e : ModuleIdEntry)
    (hsel : selectCandidate dict (queryName midq) = some e)
    (hk : k ≤ fuel)
    (hterm : ((chaseStep dict)^[k] e).mid = ((chaseStep dict)^[k] e).providingModuleId) :
    ∃ t, chase dict fuel e = some t ∧ t.mid = t.providingModuleId ∧
      find_declaring_module_dir libpath (some dict) midq fuel =
        some (Except.ok (libpath ++ separator ++ (parse_module_id t.mid).1 ++
          separator ++ (parse_module_id t.mid).2)) := by
  obtain ⟨t, ht, htt⟩ := chase_of_reaches dict k fuel e hk hterm
  refine ⟨t, ht, htt, ?_⟩
  simp only [find_declaring_module_dir, hsel, ht]

theorem find_declaring_module_dir_terminal_witness :
    (selectCandidate dictABC (queryName "A") = some ⟨"A", "B"⟩ ∧
     2 ≤ 2 ∧
     ((chaseStep dictABC)^[2] ⟨"A", "B"⟩).mid =
       ((chaseStep dictABC)^[2] ⟨"A", "B"⟩).providingModuleId) ∧
    ∃ t, chase dictABC 2 ⟨"A", "B"⟩ = some t ∧ t.mid = t.providingModuleId ∧
      find_declaring_module_dir "lib" (some dictABC) "A" 2 =
        some (Except.ok ("lib" ++ separator ++ (parse_module_id t.mid).1 ++
          separator ++ (parse_module_id t.mid).2)) :=
  ⟨⟨by decide, by decide, by decide⟩,
   find_declaring_module_dir_terminal "lib" dictABC "A" 2 2 ⟨"A", "B"⟩
     (by decide) (by decide) (by decide)⟩

/-! ## Claim C3: base identification -/

theorem findBaseIn_eq (mods : List JModule) :
    ∀ i, findBaseIn i mods = List.findIdx? isBaseMod mods i := by
  induction mods with
  | nil => intro i; rfl
  | cons m t ih =>
    intro i
    rw [List.findIdx?_cons]
    by_cases h : m.module_name = JDK_BASE
    · simp [findBaseIn, isBaseMod, h]
    · simp [findBaseIn, isBaseMod, h, ih]

theorem scanBaseAux_eq (cxs : List JContext) :
    ∀ n, scanBaseAux n cxs = (specBase cxs).map (fun pr => (pr.1 + n, pr.2)) := by
  induction cxs with
  | nil => intro n; rfl
  | cons cx rest ih =>
    intro n
    by_cases h : cx.modules.any isBaseMod = true
    · have hs : (List.findIdx? isBaseMod cx.modules).isSome = true := by
        rw [List.findIdx?_isSome]; exact h
      obtain ⟨i, hi⟩ := Option.isSome_iff_exists.mp hs
      simp [scanBaseAux, specBase, findBaseIn_eq, List.findIdx?_cons, h, hi]
    · have hnone : List.findIdx? isBaseMod cx.modules = none := by
        cases hx : List.findIdx? isBaseMod cx.modules with
        | none => rfl
        | some i =>
          have hsome : (List.findIdx? isBaseMod cx.modules).isSome = true := by
            rw [hx]; rfl
          rw [List.findIdx?_isSome] at hsome
          exact absurd hsome h
      have hstep : scanBaseAux n (cx :: rest) = scanBaseAux (n + 1) rest := by
        simp [scanBaseAux, findBaseIn_eq, hnone]
      rw [hstep, ih (n + 1)]
      simp only [specBase, List.findIdx?_cons, h, if_false, Bool.false_eq_true,
        List.findIdx?_succ]
      cases hfr : List.findIdx? (fun cx => cx.modules.any isBaseMod) rest with
      | none => simp [hfr]
      | some k =>
        simp only [hfr, Option.map_some', Option.some_bind, Option.map_map]
        congr 1
        funext i
        simp only [Function.comp_apply, Prod.mk.injEq]
        exact ⟨by omega, trivial⟩

theorem scanBase_eq_specBase (cxs : List JContext) : scanBase cxs = specBase cxs := by
  unfold scanBase
  rw [scanBaseAux_eq]
  cases specBase cxs with
  | none => rfl
  | some pr => simp

/-- Claim C3: after parsing, `JDK_LoadContexts` makes the base context the
first context (in declaration order) containing a module literally named
`jdk.base` and the base module the first such module in it, and fails
with the base-module-not-found error when no context has one. -/
theorem JDK_LoadContexts_base_identification
    (mlib : List LLibrary) (q : String) (rcf : String → Except Int (List JContext))
    (fuel : Nat) (p lp : String) (cxs : List JContext)
    (hfc : find_config mlib q fuel = some (some (p, lp)))
    (hrc : rcf p = Except.ok cxs) :
    scanBase cxs = specBase cxs ∧
    (∀ n i, scanBase cxs = some (n, i) →
      JDK_LoadContexts mlib (some q) rcf fuel =
        some (Except.ok { classpath_mode := false, path := lp, contexts := cxs,
                          base := n, base_module := i })) ∧
    ((∀ cx ∈ cxs, ∀ m ∈ cx.modules, m.module_name ≠ JDK_BASE) →
      JDK_LoadContexts mlib (some q) rcf fuel =
        some (Except.error JIGSAW_ERROR_BASE_MODULE_NOT_FOUND)) := by
  refine ⟨scanBase_eq_specBase cxs, ?_, ?_⟩
  · intro n i hsc
    simp [JDK_LoadContexts, hfc, hrc, hsc]
  · intro hno
    have hnone : scanBase cxs = none := by
      rw [scanBase_eq_specBase]
      unfold specBase
      have hidx : List.findIdx? (fun cx => cx.modules.any isBaseMod) cxs = none := by
        rw [List.findIdx?_eq_none_iff]
        intro cx hcx
        simp only [List.any_eq_false, isBaseMod]
        intro m hm
        simp [hno cx hcx m hm]
      rw [hidx]
      rfl
    simp [JDK_LoadContexts, hfc, hrc, hnone]

theorem JDK_LoadContexts_base_identification_witness :
    (find_config mlibW "q" 1 = some (some ("lib/q/1/config", "lib")) ∧
     rcfW "lib/q/1/config" = Except.ok cxsW ∧
     scanBase cxsW = some (1, 0)) ∧
    JDK_LoadContexts mlibW (some "q") rcfW 1 =
      some (Except.ok { classpath_mode := false, path := "lib", contexts := cxsW,
                        base := 1, base_module := 0 }) :=
  ⟨⟨by decide, rfl, by decide⟩,
   (JDK_LoadContexts_base_identification mlibW "q" rcfW 1 "lib/q/1/config" "lib" cxsW
     (by decide) rfl).2.1 1 0 (by decide)⟩

/-! ## Claim C6: the library-chain walk of find_config -/

theorem find_config_eq_firstSuccess (q : String) (fuel : Nat) :
    ∀ mlib : List LLibrary,
      (∀ lib ∈ mlib, (find_declaring_module_dir lib.path lib.mids q fuel).isSome = true) →
      find_config mlib q fuel = some (specFirstSuccess mlib q fuel) := by
  intro mlib
  induction mlib with
  | nil => intro _; rfl
  | cons lib rest ih =>
    intro hterm
    have hl := hterm lib (List.mem_cons_self lib rest)
    cases hd : find_declaring_module_dir lib.path lib.mids q fuel with
    | none => rw [hd] at hl; exact absurd hl (by simp)
    | some r =>
      cases r with
      | ok mdir => simp [find_config, specFirstSuccess, List.findSome?_cons, hd]
      | error e =>
        have hrest := ih (fun l hl' => hterm l (List.mem_cons_of_mem lib hl'))
        simp [find_config, specFirstSuccess, List.findSome?_cons, hd]
        simpa [specFirstSuccess] using hrest

/-- Claim C6: `find_config` tries the declaring-directory lookup on each
library of the chain starting with the one passed in, then its ancestors
in parent order; the first success determines the result, whose
configuration path is `<declaring-dir>/config`; if no library in the
chain succeeds, the load fails with the module-not-found error. -/
theorem find_config_chain_order (mlib : List LLibrary) (q : String) (fuel : Nat)
    (hterm : ∀ lib ∈ mlib,
      (find_declaring_module_dir lib.path lib.mids q fuel).isSome = true) :
    find_config mlib q fuel = some (specFirstSuccess mlib q fuel) ∧
    (specFirstSuccess mlib q fuel = none → ∀ rcf,
      JDK_LoadContexts mlib (some q) rcf fuel =
        some (Except.error JIGSAW_ERROR_MODULE_NOT_FOUND)) := by
  have ha := find_config_eq_firstSuccess q fuel mlib hterm
  refine ⟨ha, ?_⟩
  intro hns rcf
  simp [JDK_LoadContexts, ha, hns]

theorem find_config_chain_order_witness :
    (∀ lib ∈ chainW,
      (find_declaring_module_dir lib.path lib.mids "Q" 1).isSome = true) ∧
    (find_config chainW "Q" 1 = some (specFirstSuccess chainW "Q" 1) ∧
     (specFirstSuccess chainW "Q" 1 = none → ∀ rcf,
       JDK_LoadContexts chainW (some "Q") rcf 1 =
         some (Except.error JIGSAW_ERROR_MODULE_NOT_FOUND))) ∧
    specFirstSuccess chainW "Q" 1 = some ("parent/Q/1/config", "parent") :=
  ⟨by decide, find_config_chain_order chainW "Q" 1 (by decide), by decide⟩

/-! ## Claim C9: the context-handle check of JDK_FindLocalClass -/

/-- Claim C9, amended: a NULL handle and a handle to the base context both
start the search in the base context, but a handle to any other loaded
context is rejected with the invalid-context error without any search
(lines 865-867 are explicit about this "temporary for testing" state). -/
theorem JDK_FindLocalClass_context_handling (cfg : JConfig)
    (has : Nat → Nat → Bool) (c : Nat) (m : Nat) (hc : c ≠ cfg.base) :
    JDK_FindLocalClass cfg (some c) has = Except.error JIGSAW_ERROR_INVALID_CONTEXT ∧
    JDK_FindLocalClass cfg none has = JDK_FindLocalClass cfg (some cfg.base) has ∧
    (find_class (baseModuleNames cfg) (some cfg.base_module) (has cfg.base) = some m →
      JDK_FindLocalClass cfg none has = Except.ok (cfg.base, m)) := by
  refine ⟨?_, rfl, ?_⟩
  · simp [JDK_FindLocalClass, hc]
  · intro hf
    simp [JDK_FindLocalClass, hf]

/-- Counterexample to claim C9 as stated: handing `JDK_FindLocalClass` a
handle to loaded context 1 (not the base context) does not begin the
search in that context — it returns the invalid-context error, even
though context 1's module would supply the class (the oracle answers
`true` everywhere). -/
theorem JDK_FindLocalClass_nonbase_counterexample :
    JDK_FindLocalClass cfgC9 (some 1) (fun _ _ => true) =
      Except.error JIGSAW_ERROR_INVALID_CONTEXT ∧
    (Except.error JIGSAW_ERROR_INVALID_CONTEXT : Except Int (Nat × Nat)) ≠
      Except.ok (1, 0) := by
  constructor
  · rfl
  · intro h
    exact Except.noConfusion h

theorem JDK_FindLocalClass_context_handling_witness :
    (1 ≠ cfgC9.base ∧
     find_class (baseModuleNames cfgC9)
       (some cfgC9.base_module) ((fun _ _ => true) cfgC9.base) = some 0) ∧
    (JDK_FindLocalClass cfgC9 (some 1) (fun _ _ => true) =
       Except.error JIGSAW_ERROR_INVALID_CONTEXT ∧
     JDK_FindLocalClass cfgC9 none (fun _ _ => true) =
       JDK_FindLocalClass cfgC9 (some cfgC9.base) (fun _ _ => true) ∧
     (find_class (baseModuleNames cfgC9)
         (some cfgC9.base_module) ((fun _ _ => true) cfgC9.base) = some 0 →
       JDK_FindLocalClass cfgC9 none (fun _ _ => true) = Except.ok (cfgC9.base, 0))) :=
  ⟨⟨by decide, by decide⟩,
   JDK_FindLocalClass_context_handling cfgC9 (fun _ _ => true) 1 0 (by decide)⟩

/-! ## Claim C10: JDK_GetSystemModuleLibraryPath -/

/-- Claim C10, amended: for non-null `java_home` the function formats
`<java_home>/lib/modules`, failing with the buffer-too-short error when
the formatted path does not fit `len`, and performs no on-disk
validation whatsoever — the result is independent of the filesystem. -/
theorem JDK_GetSystemModuleLibraryPath_spec (jh : String) (len : Nat)
    (fs fs' : String → Bool) :
    (JDK_GetSystemModuleLibraryPath true (some jh) len fs =
       JDK_GetSystemModuleLibraryPath true (some jh) len fs') ∧
    ((jh ++ separator ++ "lib" ++ separator ++ "modules").length < len →
      JDK_GetSystemModuleLibraryPath true (some jh) len fs =
        Except.ok (jh ++ separator ++ "lib" ++ separator ++ "modules")) ∧
    (len ≤ (jh ++ separator ++ "lib" ++ separator ++ "modules").length →
      JDK_GetSystemModuleLibraryPath true (some jh) len fs =
        Except.error JIGSAW_ERROR_BUFFER_TOO_SHORT) := by
  refine ⟨rfl, ?_, ?_⟩
  · intro h
    simp only [String.length_append] at h
    simp [JDK_GetSystemModuleLibraryPath]
    omega
  · intro h
    simp only [String.length_append] at h
    simp [JDK_GetSystemModuleLibraryPath]
    omega

/-- Counterexample to claim C10 as stated: with a filesystem on which no
library header exists anywhere (the oracle is constantly false), the call
still succeeds — the claimed validation of the library's on-disk header
does not happen. -/
theorem JDK_GetSystemModuleLibraryPath_counterexample :
    JDK_GetSystemModuleLibraryPath true (some "jh") 100 (fun _ => false) =
      Except.ok "jh/lib/modules" := by
  rfl

theorem JDK_GetSystemModuleLibraryPath_spec_witness :
    (("jh" ++ separator ++ "lib" ++ separator ++ "modules").length < 100) ∧
    JDK_GetSystemModuleLibraryPath true (some "jh") 100 (fun _ => true) =
      Except.ok ("jh" ++ separator ++ "lib" ++ separator ++ "modules") :=
  ⟨by decide,
   (JDK_GetSystemModuleLibraryPath_spec "jh" 100 (fun _ => true) (fun _ => true)).2.1
     (by decide)⟩

/-! ## Claim C2: the visit order of find_class -/

theorem fcLoopTr_steady (names : List String) (bI : Option Nat) (has : Nat → Bool)
    (hcp : ∀ i, i < names.length → names.getD i "" = JDK_CLASSPATH → bI ≠ some (i + 1)) :
    ∀ gas k, names.length + 1 ≤ gas + k → bI ≠ some k →
      fcLoopTr names bI has gas (k : Int) k =
        specWalk has ((List.range' k (names.length - k)).filter (visitable names bI)) := by
  intro gas
  induction gas with
  | zero =>
    intro k hgk _
    have h0 : names.length - k = 0 := by omega
    rw [h0]
    rfl
  | succ gas ih =>
    intro k hgk hk
    by_cases hkl : k < names.length
    · have hrange : names.length - k = (names.length - (k + 1)) + 1 := by omega
      rw [hrange, List.range'_succ, List.filter_cons]
      have hcast1 : ((k : Int) + 1).toNat = k + 1 := by omega
      have hcast1' : ((k : Int) + 1) = ((k + 1 : Nat) : Int) := by push_cast; ring
      simp only [fcLoopTr]
      rw [if_pos (by exact_mod_cast hkl)]
      by_cases hcpk : names.getD k "" = JDK_CLASSPATH
      · have hv : visitable names bI k = false := by
          simp only [visitable]
          rw [hcpk]
          simp
        rw [hv]
        simp only [Bool.false_eq_true, if_false]
        rw [if_pos hcpk, hcast1, hcast1']
        exact ih (k + 1) (by omega) (hcp k hkl hcpk)
      · have hv : visitable names bI k = true := by
          simp only [visitable, Bool.and_eq_true, decide_eq_true_eq]
          exact ⟨hk, hcpk⟩
        rw [hv]
        simp only [if_true]
        rw [if_neg hcpk]
        simp only [specWalk]
        by_cases hhk : has k = true
        · simp [hhk]
        · rw [if_neg hhk, if_neg hhk]
          by_cases hk1 : k + 1 < names.length
          · rw [if_pos (by exact_mod_cast hk1), hcast1]
            by_cases hb1 : bI = some (k + 1)
            · rw [if_pos hb1]
              have hcast2 : ((k : Int) + 2).toNat = k + 2 := by omega
              have hcast2' : ((k : Int) + 2) = ((k + 2 : Nat) : Int) := by push_cast; ring
              rw [hcast2, hcast2']
              rw [ih (k + 2) (by omega) (by rw [hb1]; simp)]
              have hrange2 : names.length - (k + 1) = (names.length - (k + 2)) + 1 := by
                omega
              rw [hrange2, List.range'_succ, List.filter_cons]
              have hv1 : visitable names bI (k + 1) = false := by
                simp only [visitable]
                rw [hb1]
                simp
              rw [hv1]
              simp only [Bool.false_eq_true, if_false]
            · rw [if_neg hb1, hcast1']
              rw [ih (k + 1) (by omega) hb1]
          · rw [if_neg (by exact_mod_cast hk1)]
            have h01 : names.length - (k + 1) = 0 := by omega
            rw [h01]
            rfl
    · have h0 : names.length - k = 0 := by omega
      rw [h0]
      simp only [fcLoopTr]
      rw [if_neg (by exact_mod_cast hkl)]
      rfl

/-- Claim C2, amended: in a loaded configuration's base context (base
module named `jdk.base` at index `b`), `find_class` consults the base
module first, never consults a `jdk.classpath` module, walks the rest in
declaration order, and returns the first consulted module whose container
yields the entry — provided no `jdk.classpath` module sits immediately
before the base module (otherwise the base module is consulted a second
time, see the counterexample).  In a non-base context the walk is plain
declaration order with `jdk.classpath` skipped. -/
theorem find_class_visit_order (names : List String) (has : Nat → Bool) (b : Nat)
    (hb1 : b < names.length) (hb2 : names.getD b "" = JDK_BASE)
    (hcp : ∀ i, i < names.length → names.getD i "" = JDK_CLASSPATH → i + 1 ≠ b) :
    find_class_tr names (some b) has = specWalk has (specOrder names (some b)) ∧
    find_class_tr names none has = specWalk has (specOrder names none) := by
  have hr : List.range names.length = List.range' 0 (names.length - 0) := by
    rw [Nat.sub_zero, List.range_eq_range']
  constructor
  · have hcp' : ∀ i, i < names.length → names.getD i "" = JDK_CLASSPATH →
        (some b : Option Nat) ≠ some (i + 1) := by
      intro i hi hcpi
      simp only [ne_eq, Option.some.injEq]
      intro hbe
      exact hcp i hi hcpi hbe.symm
    have hbcp : names.getD b "" ≠ JDK_CLASSPATH := by
      rw [hb2]; decide
    obtain ⟨G, hG⟩ : ∃ G, G = names.length + 1 := ⟨_, rfl⟩
    show fcLoopTr names (some b) has (names.length + 1 + 1) (-1) b = _
    rw [show names.length + 1 + 1 = G + 1 from by omega]
    simp only [fcLoopTr, specOrder, specWalk]
    rw [if_pos (by omega : (-1 : Int) < (names.length : Int))]
    rw [if_neg hbcp]
    by_cases hhb : has b = true
    · simp [hhb]
    · rw [if_neg hhb, if_neg hhb]
      rw [if_pos (by omega : (-1 : Int) + 1 < (names.length : Int))]
      have ht0 : ((-1 : Int) + 1).toNat = 0 := by decide
      rw [ht0]
      by_cases hb0 : b = 0
      · rw [if_pos (by rw [hb0])]
        have ht1 : ((-1 : Int) + 2).toNat = 1 := by decide
        have ht1' : ((-1 : Int) + 2) = ((1 : Nat) : Int) := by decide
        rw [ht1, ht1']
        rw [fcLoopTr_steady names (some b) has hcp' G 1 (by omega)
          (by rw [hb0]; simp)]
        rw [hr]
        have hrange0 : names.length - 0 = (names.length - 1) + 1 := by omega
        rw [hrange0, List.range'_succ, List.filter_cons]
        have hv0 : visitable names (some b) 0 = false := by
          simp only [visitable]
          rw [hb0]
          simp
        rw [hv0]
        simp only [Bool.false_eq_true, if_false]
      · rw [if_neg (by simp [hb0])]
        have ht0' : ((-1 : Int) + 1) = ((0 : Nat) : Int) := by decide
        rw [ht0']
        rw [fcLoopTr_steady names (some b) has hcp' G 0 (by omega)
          (by simpa using hb0)]
        rw [hr]
  · have hcp0 : ∀ i, i < names.length → names.getD i "" = JDK_CLASSPATH →
        (none : Option Nat) ≠ some (i + 1) := by
      intro i _ _
      simp
    show fcLoopTr names none has (names.length + 2) 0 0 = _
    have h00 : ((0 : Nat) : Int) = (0 : Int) := rfl
    rw [← h00]
    rw [fcLoopTr_steady names none has hcp0 (names.length + 2) 0 (by omega) (by simp)]
    simp only [specOrder]
    rw [hr]

/-- Counterexample to claim C2 as stated: in a base context whose module
list is `[jdk.classpath, jdk.base]` (base module at index 1), the walk
consults the base module twice — after skipping the `jdk.classpath`
module at index 0 the cursor lands back on the base module, and the
"skip the base module (already visited)" check of lines 676-679 is not
applied on that path.  The spec-side order visits it once. -/
theorem find_class_base_revisit_counterexample :
    (find_class_tr ["jdk.classpath", "jdk.base"] (some 1) (fun _ => false)).1 = [1, 1] ∧
    specOrder ["jdk.classpath", "jdk.base"] (some 1) = [1] := by
  constructor
  · rfl
  · rfl

theorem find_class_visit_order_witness :
    (0 < (["jdk.base", "m1", "m2"] : List String).length ∧
     (["jdk.base", "m1", "m2"] : List String).getD 0 "" = JDK_BASE ∧
     (∀ i, i < (["jdk.base", "m1", "m2"] : List String).length →
       (["jdk.base", "m1", "m2"] : List String).getD i "" = JDK_CLASSPATH → i + 1 ≠ 0)) ∧
    (find_class_tr ["jdk.base", "m1", "m2"] (some 0) (fun i => decide (i = 2)) =
       specWalk (fun i => decide (i = 2)) (specOrder ["jdk.base", "m1", "m2"] (some 0)) ∧
     find_class_tr ["jdk.base", "m1", "m2"] none (fun i => decide (i = 2)) =
       specWalk (fun i => decide (i = 2)) (specOrder ["jdk.base", "m1", "m2"] none)) ∧
    find_class ["jdk.base", "m1", "m2"] (some 0) (fun i => decide (i = 2)) = some 2 :=
  ⟨⟨by decide, by decide, by decide⟩,
   find_class_visit_order ["jdk.base", "m1", "m2"] (fun i => decide (i = 2)) 0
     (by decide) (by decide) (by decide),
   by decide⟩

/-! ## Claim C7: the classpath-mode fallback walk -/

theorem cpGo_eq_specWalkCp (b : Nat) (has : Nat → Nat → Bool) :
    ∀ l : List (Nat × JContext),
      cpGo b has l =
        specWalkCp
          (fun n cx => find_class (cx.modules.map (fun m => m.module_name)) none (has n))
          (l.filter (fun p => decide (p.1 ≠ b) && p.2.bootstrap)) := by
  intro l
  induction l with
  | nil => rfl
  | cons p rest ih =>
    obtain ⟨n, cx⟩ := p
    rw [List.filter_cons]
    by_cases hskip : n = b ∨ cx.bootstrap = false
    · have hc : (decide (¬n = b) && cx.bootstrap) = false := by
        rcases hskip with h | h
        · simp [h]
        · simp [h]
      rw [hc]
      simp only [Bool.false_eq_true, if_false]
      simp only [cpGo]
      rw [if_pos hskip]
      exact ih
    · have hc : (decide (¬n = b) && cx.bootstrap) = true := by
        push_neg at hskip
        have hb2 : cx.bootstrap = true := by
          cases hcb : cx.bootstrap
          · exact absurd hcb hskip.2
          · rfl
        simp [hskip.1, hb2]
      rw [hc]
      simp only [if_true]
      simp only [cpGo, specWalkCp]
      rw [if_neg hskip]
      cases hf : find_class (cx.modules.map (fun m => m.module_name)) none (has n) with
      | some m => simp only [hf]
      | none =>
        simp only [hf]
        rw [ih]

/-- Claim C7: in classpath mode, when the base-context search fails,
`JDK_FindLocalClass` searches the remaining contexts in declaration
order, visiting exactly the bootstrap-eligible contexts other than the
base context, and stops at the first context whose search succeeds. -/
theorem JDK_FindLocalClass_classpath_fallback (cfg : JConfig) (has : Nat → Nat → Bool)
    (hmode : cfg.classpath_mode = true)
    (hbase : find_class (baseModuleNames cfg) (some cfg.base_module) (has cfg.base) = none) :
    classpath_fallback cfg has =
      specWalkCp
        (fun n cx => find_class (cx.modules.map (fun m => m.module_name)) none (has n))
        (cfg.contexts.enum.filter (fun p => decide (p.1 ≠ cfg.base) && p.2.bootstrap)) ∧
    JDK_FindLocalClass cfg none has =
      (match (specWalkCp
          (fun n cx => find_class (cx.modules.map (fun m => m.module_name)) none (has n))
          (cfg.contexts.enum.filter (fun p => decide (p.1 ≠ cfg.base) && p.2.bootstrap))).2 with
       | some nm => Except.ok nm
       | none => Except.error JIGSAW_ERROR_CLASS_NOT_FOUND) := by
  have ha := cpGo_eq_specWalkCp cfg.base has cfg.contexts.enum
  refine ⟨ha, ?_⟩
  simp only [JDK_FindLocalClass]
  rw [if_neg (by simp), hbase, hmode]
  simp only [if_true]
  show (match (classpath_fallback cfg has).2 with
        | some nm => (Except.ok nm : Except Int (Nat × Nat))
        | none => Except.error JIGSAW_ERROR_CLASS_NOT_FOUND) = _
  rw [show classpath_fallback cfg has = cpGo cfg.base has cfg.contexts.enum from rfl, ha]

theorem JDK_FindLocalClass_classpath_fallback_witness :
    (cfgC7.classpath_mode = true ∧
     find_class (baseModuleNames cfgC7) (some cfgC7.base_module) (hasC7 cfgC7.base) = none) ∧
    (classpath_fallback cfgC7 hasC7 =
       specWalkCp
         (fun n cx => find_class (cx.modules.map (fun m => m.module_name)) none (hasC7 n))
         (cfgC7.contexts.enum.filter
           (fun p => decide (p.1 ≠ cfgC7.base) && p.2.bootstrap)) ∧
     JDK_FindLocalClass cfgC7 none hasC7 =
       (match (specWalkCp
           (fun n cx => find_class (cx.modules.map (fun m => m.module_name)) none (hasC7 n))
           (cfgC7.contexts.enum.filter
             (fun p => decide (p.1 ≠ cfgC7.base) && p.2.bootstrap))).2 with
        | some nm => Except.ok nm
        | none => Except.error JIGSAW_ERROR_CLASS_NOT_FOUND)) ∧
    (classpath_fallback cfgC7 hasC7).1 = [2] ∧
    JDK_FindLocalClass cfgC7 none hasC7 = Except.ok (2, 0) :=
  ⟨⟨rfl, by decide⟩,
   JDK_FindLocalClass_classpath_fallback cfgC7 hasC7 rfl (by decide),
   by decide,
   rfl⟩

/-! ## Round-trip lemmas for the binary reader -/

theorem mBind_eq {α β : Type} (x : M α) (f : α → M β) {s : List Nat} {a : α}
    {s1 : List Nat} (h : x s = some (Except.ok (a, s1))) :
    mBind x f s = f a s1 := by
  unfold mBind
  rw [h]

theorem readN_rt (l r : List Nat) : readN l.length (l ++ r) = some (Except.ok (l, r)) := by
  unfold readN
  rw [if_pos (by simp), List.take_left, List.drop_left]

theorem convertToInt_encShort (v : Nat) (h : v < 65536) :
    convertToInt (encShort v) = v := by
  simp only [convertToInt, encShort, List.foldl_cons, List.foldl_nil]
  omega

theorem convertToInt_encInt (v : Nat) (h : v < 4294967296) :
    convertToInt (encInt v) = v := by
  simp only [convertToInt, encInt, List.foldl_cons, List.foldl_nil]
  omega

theorem readShort_rt (v : Nat) (r : List Nat) (h : v < 65536) :
    readShort (encShort v ++ r) = some (Except.ok (v, r)) := by
  unfold readShort
  rw [mBind_eq _ _ (by rw [show (2 : Nat) = (encShort v).length from rfl, readN_rt])]
  unfold mPure
  rw [convertToInt_encShort v h]

theorem readInt_rt (v : Nat) (r : List Nat) (h : v < 4294967296) :
    readInt (encInt v ++ r) = some (Except.ok (v, r)) := by
  unfold readInt
  rw [mBind_eq _ _ (by rw [show (4 : Nat) = (encInt v).length from rfl, readN_rt])]
  unfold mPure
  rw [convertToInt_encInt v h]

theorem readUTF8_rt (s : List Nat) (r : List Nat) (h : s.length < 65536) :
    readUTF8 (encUTF8 s ++ r) = some (Except.ok (s, r)) := by
  unfold readUTF8 encUTF8
  rw [List.append_assoc]
  rw [mBind_eq _ _ (readShort_rt s.length (s ++ r) h)]
  exact readN_rt s r

theorem jintIter_eq (v : Nat) (h : v < 2 ^ 31) : jintIter v = v := if_pos h

theorem mRepN_rt {α β : Type} (p : M β) (enc : α → List Nat) (f : α → β) :
    ∀ (l : List α) (r : List Nat),
      (∀ a ∈ l, ∀ r', p (enc a ++ r') = some (Except.ok (f a, r'))) →
      mRepN p l.length ((l.map enc).flatten ++ r) = some (Except.ok (l.map f, r)) := by
  intro l
  induction l with
  | nil =>
    intro r _
    rfl
  | cons a t ih =>
    intro r h
    show mRepN p (t.length + 1) _ = _
    simp only [List.map_cons, List.flatten_cons, List.append_assoc]
    simp only [mRepN]
    rw [mBind_eq _ _ (h a (List.mem_cons_self a t) ((t.map enc).flatten ++ r))]
    rw [mBind_eq _ _ (ih r (fun x hx r' => h x (List.mem_cons_of_mem a hx) r'))]
    rfl

theorem checkFileHeader4_eq (e : Nat) :
    checkFileHeader 4 e =
      mBind readInt (fun v =>
        mPure (if v = e then (0 : Int) else JIGSAW_ERROR_BAD_FILE_HEADER)) := rfl

theorem checkFileHeader2_eq (e : Nat) :
    checkFileHeader 2 e =
      mBind readShort (fun v =>
        mPure (if v = e then (0 : Int) else JIGSAW_ERROR_BAD_FILE_HEADER)) := rfl

theorem mCheck4_pass {α : Type} (e : Nat) (he : e < 4294967296) (err : Int)
    (next : M α) (r : List Nat) :
    mCheck 4 e err next (encInt e ++ r) = next r := by
  unfold mCheck
  rw [checkFileHeader4_eq]
  rw [mBind_eq _ _ (show mBind readInt _ (encInt e ++ r) = some (Except.ok ((0 : Int), r)) from by
    rw [mBind_eq _ _ (readInt_rt e r he)]
    unfold mPure
    rw [if_pos rfl])]
  rw [if_pos rfl]

theorem mCheck4_fail {α : Type} (e v : Nat) (hv : v < 4294967296) (hne : v ≠ e)
    (err : Int) (next : M α) (r : List Nat) :
    mCheck 4 e err next (encInt v ++ r) = some (Except.error err) := by
  unfold mCheck
  rw [checkFileHeader4_eq]
  rw [mBind_eq _ _ (show mBind readInt _ (encInt v ++ r) =
      some (Except.ok (JIGSAW_ERROR_BAD_FILE_HEADER, r)) from by
    rw [mBind_eq _ _ (readInt_rt v r hv)]
    unfold mPure
    rw [if_neg hne])]
  rw [if_neg (by decide)]
  rfl

theorem mCheck2_pass {α : Type} (e : Nat) (he : e < 65536) (err : Int)
    (next : M α) (r : List Nat) :
    mCheck 2 e err next (encShort e ++ r) = next r := by
  unfold mCheck
  rw [checkFileHeader2_eq]
  rw [mBind_eq _ _ (show mBind readShort _ (encShort e ++ r) = some (Except.ok ((0 : Int), r)) from by
    rw [mBind_eq _ _ (readShort_rt e r he)]
    unfold mPure
    rw [if_pos rfl])]
  rw [if_pos rfl]

theorem mCheck2_fail {α : Type} (e v : Nat) (hv : v < 65536) (hne : v ≠ e)
    (err : Int) (next : M α) (r : List Nat) :
    mCheck 2 e err next (encShort v ++ r) = some (Except.error err) := by
  unfold mCheck
  rw [checkFileHeader2_eq]
  rw [mBind_eq _ _ (show mBind readShort _ (encShort v ++ r) =
      some (Except.ok (JIGSAW_ERROR_BAD_FILE_HEADER, r)) from by
    rw [mBind_eq _ _ (readShort_rt v r hv)]
    unfold mPure
    rw [if_neg hne])]
  rw [if_neg (by decide)]
  rfl

/-! ## strtok lemmas for the module-id split -/

theorem takeWhile_ne64 (n v : List Nat) (h64 : 64 ∉ n) :
    (n ++ 64 :: v).takeWhile (fun b => b ≠ 64) = n := by
  induction n with
  | nil =>
    rw [List.nil_append, List.takeWhile_cons, if_neg (by simp)]
  | cons a t ih =>
    have ha : a ≠ 64 := fun hh => h64 (hh ▸ List.mem_cons_self a t)
    have ht : 64 ∉ t := fun hh => h64 (List.mem_cons_of_mem a hh)
    rw [List.cons_append, List.takeWhile_cons, if_pos (decide_eq_true ha), ih ht]

theorem dropWhile_ne64_over (n v : List Nat) (h64 : 64 ∉ n) :
    (n ++ 64 :: v).dropWhile (fun b => b ≠ 64) = 64 :: v := by
  induction n with
  | nil =>
    rw [List.nil_append, List.dropWhile_cons, if_neg (by simp)]
  | cons a t ih =>
    have ha : a ≠ 64 := fun hh => h64 (hh ▸ List.mem_cons_self a t)
    have ht : 64 ∉ t := fun hh => h64 (List.mem_cons_of_mem a hh)
    rw [List.cons_append, List.dropWhile_cons, if_pos (decide_eq_true ha)]
    exact ih ht

theorem takeWhile_all_ne64 (v : List Nat) (h64 : 64 ∉ v) :
    v.takeWhile (fun b => b ≠ 64) = v := by
  induction v with
  | nil => rfl
  | cons a t ih =>
    have ha : a ≠ 64 := fun hh => h64 (hh ▸ List.mem_cons_self a t)
    have ht : 64 ∉ t := fun hh => h64 (List.mem_cons_of_mem a hh)
    rw [List.takeWhile_cons, if_pos (decide_eq_true ha), ih ht]

theorem dropWhile_eq64_head (n rest : List Nat) (hn : n ≠ []) (h64 : 64 ∉ n) :
    (n ++ rest).dropWhile (fun b => b = 64) = n ++ rest := by
  cases n with
  | nil => exact absurd rfl hn
  | cons a t =>
    have ha : a ≠ 64 := fun hh => h64 (hh ▸ List.mem_cons_self a t)
    simp [List.dropWhile_cons, ha]

theorem dropWhile_eq64_self (v : List Nat) (hv : v ≠ []) (h64 : 64 ∉ v) :
    v.dropWhile (fun b => b = 64) = v := by
  cases v with
  | nil => exact absurd rfl hv
  | cons a t =>
    have ha : a ≠ 64 := fun hh => h64 (hh ▸ List.mem_cons_self a t)
    simp [List.dropWhile_cons, ha]

theorem strtok1_mid (n v : List Nat) (hn : n ≠ []) (h64 : 64 ∉ n) :
    strtok1 (n ++ 64 :: v) = n := by
  unfold strtok1
  rw [dropWhile_eq64_head n (64 :: v) hn h64]
  exact takeWhile_ne64 n v h64

theorem strtok2_mid (n v : List Nat) (hn : n ≠ []) (h64n : 64 ∉ n)
    (hv : v ≠ []) (h64v : 64 ∉ v) :
    strtok2 (n ++ 64 :: v) = some v := by
  unfold strtok2
  rw [dropWhile_eq64_head n (64 :: v) hn h64n]
  rw [dropWhile_ne64_over n v h64n]
  rw [show ((64 :: v).dropWhile (fun b => b = 64)) = v.dropWhile (fun b => b = 64) from by
    simp [List.dropWhile_cons]]
  rw [dropWhile_eq64_self v hv h64v]
  rw [if_neg hv]
  rw [takeWhile_all_ne64 v h64v]

/-! ## Claim C1: the round trip through load_config -/

theorem mReadModule_rt (m : EncModule) (h : WFModule m) (r : List Nat) :
    mReadModule (encModule m ++ r) = some (Except.ok (parsedModule m, r)) := by
  obtain ⟨⟨⟨hnl, _⟩, hne, hn64⟩, ⟨⟨hvl, _⟩, hve, hv64⟩, hmidlen, ⟨hlibl, _⟩, hviews, hvs⟩ := h
  unfold mReadModule encModule
  simp only [List.append_assoc]
  rw [mBind_eq _ _ (readUTF8_rt (m.name ++ 64 :: m.version) _ (by
    simp only [List.length_append, List.length_cons]
    omega))]
  try simp only []
  rw [mBind_eq _ _ (readUTF8_rt m.libpath _ hlibl)]
  try simp only []
  rw [mBind_eq _ _ (readInt_rt m.views.length _ (by omega))]
  try simp only []
  rw [jintIter_eq m.views.length hviews]
  rw [mBind_eq _ _ (mRepN_rt readUTF8 encUTF8 (fun v => v) m.views r
    (fun a ha r' => readUTF8_rt a r' (hvs a ha).1))]
  try simp only []
  unfold mPure parsedModule
  rw [strtok1_mid m.name m.version hne hn64,
    strtok2_mid m.name m.version hne hn64 hve hv64]

theorem mReadClassEntry_rt (e : Nat × List Nat × Nat) (h : WFClassEntry e)
    (r : List Nat) :
    mReadClassEntry (encClassEntry e ++ r) = some (Except.ok ((), r)) := by
  obtain ⟨h1, ⟨h2, _⟩, h3⟩ := h
  unfold mReadClassEntry encClassEntry
  simp only [List.append_assoc]
  rw [mBind_eq _ _ (readInt_rt e.1 _ (by omega))]
  try simp only []
  rw [mBind_eq _ _ (readUTF8_rt e.2.1 _ h2)]
  try simp only []
  rw [mBind_eq _ _ (readInt_rt e.2.2 _ (by omega))]
  try simp only []
  rfl

theorem mReadRemotePkg_rt (e : Nat × Nat) (h : e.1 < 2 ^ 32 ∧ e.2 < 2 ^ 32)
    (r : List Nat) :
    mReadRemotePkg (encRemotePkg e ++ r) = some (Except.ok ((), r)) := by
  unfold mReadRemotePkg encRemotePkg
  simp only [List.append_assoc]
  rw [mBind_eq _ _ (readInt_rt e.1 _ (by omega))]
  try simp only []
  rw [mBind_eq _ _ (readInt_rt e.2 _ (by omega))]
  try simp only []
  rfl

theorem mReadService_rt (sv : EncService) (h : WFService sv) (r : List Nat) :
    mReadService (encService sv ++ r) = some (Except.ok ((), r)) := by
  obtain ⟨⟨hsl, _⟩, hil, his⟩ := h
  unfold mReadService encService
  simp only [List.append_assoc]
  rw [mBind_eq _ _ (readUTF8_rt sv.sname _ hsl)]
  try simp only []
  rw [mBind_eq _ _ (readInt_rt sv.impls.length _ (by omega))]
  try simp only []
  rw [jintIter_eq sv.impls.length hil]
  rw [mBind_eq _ _ (mRepN_rt readUTF8 encUTF8 (fun v => v) sv.impls r
    (fun a ha r' => readUTF8_rt a r' (his a ha).1))]
  try simp only []
  rfl

theorem mReadContextBody_rt (cx : EncContext) (h : WFContext cx) (r : List Nat) :
    mReadContextBody (encContextBody cx ++ r) =
      some (Except.ok (cx.modules.map parsedModule, r)) := by
  obtain ⟨_, hml, hms, hcl, hcs, hrl, hrs, hsl, hss, hvl, hvs⟩ := h
  unfold mReadContextBody encContextBody
  simp only [List.append_assoc]
  rw [mBind_eq _ _ (readInt_rt cx.modules.length _ (by omega))]
  try simp only []
  rw [jintIter_eq cx.modules.length hml]
  rw [mBind_eq _ _ (mRepN_rt mReadModule encModule parsedModule cx.modules _
    (fun a ha r' => mReadModule_rt a (hms a ha) r'))]
  try simp only []
  rw [mBind_eq _ _ (readInt_rt cx.localClasses.length _ (by omega))]
  try simp only []
  rw [jintIter_eq cx.localClasses.length hcl]
  rw [mBind_eq _ _ (mRepN_rt mReadClassEntry encClassEntry (fun _ => ())
    cx.localClasses _ (fun a ha r' => mReadClassEntry_rt a (hcs a ha) r'))]
  try simp only []
  rw [mBind_eq _ _ (readInt_rt cx.remotePkgs.length _ (by omega))]
  try simp only []
  rw [jintIter_eq cx.remotePkgs.length hrl]
  rw [mBind_eq _ _ (mRepN_rt mReadRemotePkg encRemotePkg (fun _ => ())
    cx.remotePkgs _ (fun a ha r' => mReadRemotePkg_rt a (hrs a ha) r'))]
  try simp only []
  rw [mBind_eq _ _ (readInt_rt cx.suppliers.length _ (by omega))]
  try simp only []
  rw [jintIter_eq cx.suppliers.length hsl]
  rw [mBind_eq _ _ (mRepN_rt readInt encInt (fun x => x) cx.suppliers _
    (fun a ha r' => readInt_rt a r' (by have := hss a ha; omega)))]
  try simp only []
  rw [mBind_eq _ _ (readInt_rt cx.services.length _ (by omega))]
  try simp only []
  rw [jintIter_eq cx.services.length hvl]
  rw [mBind_eq _ _ (mRepN_rt mReadService encService (fun _ => ())
    cx.services _ (fun a ha r' => mReadService_rt a (hvs a ha) r'))]
  try simp only []
  rfl

theorem zipWith_map_same {α β γ δ : Type} (f : β → γ → δ) (g : α → β) (h : α → γ)
    (l : List α) :
    List.zipWith f (l.map g) (l.map h) = l.map (fun x => f (g x) (h x)) := by
  induction l with
  | nil => rfl
  | cons a t ih => simp [ih]

/-- Claim C1: for every well-formed configuration produced by the
round-trip encoder, `load_config` succeeds and reproduces the ordered
context names and, per context, the ordered (name, version,
library-path-override) module tuples that were encoded. -/
theorem load_config_roundtrip (c : EncConfig) (h : WFConfig c) :
    load_config (encConfig c) = some (Except.ok (expectedParse c, [])) := by
  obtain ⟨hrl, hrs, hpl, hps, hcl, hcs⟩ := h
  unfold load_config encConfig
  conv_lhs =>
    rw [← List.append_nil ((c.contexts.map encContextBody).flatten)]
  simp only [List.append_assoc]
  rw [mCheck4_pass MAGIC (by decide) JIGSAW_ERROR_BAD_CONFIG _ _]
  rw [mCheck2_pass LIBRARY_MODULE_CONFIG (by decide) JIGSAW_ERROR_BAD_CONFIG _ _]
  rw [mCheck2_pass MAJOR_VERSION (by decide) JIGSAW_ERROR_BAD_CONFIG _ _]
  rw [mCheck2_pass MINOR_VERSION (by decide) JIGSAW_ERROR_BAD_CONFIG _ _]
  rw [mBind_eq _ _ (readInt_rt c.roots.length _ (by omega))]
  try simp only []
  rw [jintIter_eq c.roots.length hrl]
  rw [mBind_eq _ _ (mRepN_rt readUTF8 encUTF8 (fun s => s) c.roots _
    (fun a ha r' => readUTF8_rt a r' (hrs a ha).1))]
  try simp only []
  rw [mBind_eq _ _ (readInt_rt c.contexts.length _ (by omega))]
  try simp only []
  simp only [jintIter_eq c.contexts.length hcl]
  rw [mBind_eq _ _ (mRepN_rt readUTF8 (fun cx => encUTF8 cx.cname)
    (fun cx => cx.cname) c.contexts _
    (fun cx hcx r' => readUTF8_rt cx.cname r' (hcs cx hcx).1.1))]
  try simp only []
  rw [mBind_eq _ _ (readInt_rt c.pkgs.length _ (by omega))]
  try simp only []
  rw [jintIter_eq c.pkgs.length hpl]
  rw [mBind_eq _ _ (mRepN_rt readUTF8 encUTF8 (fun s => s) c.pkgs _
    (fun a ha r' => readUTF8_rt a r' (hps a ha).1))]
  try simp only []
  rw [mBind_eq _ _ (mRepN_rt mReadContextBody encContextBody
    (fun cx => cx.modules.map parsedModule) c.contexts _
    (fun cx hcx r' => mReadContextBody_rt cx (hcs cx hcx) r'))]
  try simp only []
  unfold mPure expectedParse
  rw [zipWith_map_same]

theorem encW_wf : WFConfig encW := by decide

theorem load_config_roundtrip_witness :
    WFConfig encW ∧
    load_config (encConfig encW) = some (Except.ok (expectedParse encW, [])) :=
  ⟨encW_wf, load_config_roundtrip encW encW_wf⟩

/-! ## Claim C8: header validation of load_config -/

/-- Claim C8, amended: flipping exactly one of the four header fields
(magic, file-kind tag, major version, minor version) makes `load_config`
fail — but always with the same `JIGSAW_ERROR_BAD_CONFIG` error:
`checkFileHeader`'s `JIGSAW_ERROR_BAD_FILE_HEADER` is discarded by the
`CLOSE_FD_RETURN(fd, JIGSAW_ERROR_BAD_CONFIG)` pattern of lines 347-357,
so the returned error does not distinguish which check failed. -/
theorem load_config_bad_header (m k ma mi : Nat) (r : List Nat)
    (hm : m < 4294967296) (hk : k < 65536) (hma : ma < 65536) (hmi : mi < 65536)
    (hone :
      (m ≠ MAGIC ∧ k = LIBRARY_MODULE_CONFIG ∧ ma = MAJOR_VERSION ∧ mi = MINOR_VERSION) ∨
      (m = MAGIC ∧ k ≠ LIBRARY_MODULE_CONFIG ∧ ma = MAJOR_VERSION ∧ mi = MINOR_VERSION) ∨
      (m = MAGIC ∧ k = LIBRARY_MODULE_CONFIG ∧ ma ≠ MAJOR_VERSION ∧ mi = MINOR_VERSION) ∨
      (m = MAGIC ∧ k = LIBRARY_MODULE_CONFIG ∧ ma = MAJOR_VERSION ∧ mi ≠ MINOR_VERSION)) :
    load_config (encInt m ++ encShort k ++ encShort ma ++ encShort mi ++ r) =
      some (Except.error JIGSAW_ERROR_BAD_CONFIG) := by
  unfold load_config
  simp only [List.append_assoc]
  rcases hone with ⟨h1, h2, h3, h4⟩ | ⟨h1, h2, h3, h4⟩ | ⟨h1, h2, h3, h4⟩ | ⟨h1, h2, h3, h4⟩
  · rw [mCheck4_fail MAGIC m hm h1 JIGSAW_ERROR_BAD_CONFIG _ _]
  · subst h1
    rw [mCheck4_pass MAGIC (by decide) _ _ _]
    rw [mCheck2_fail LIBRARY_MODULE_CONFIG k hk h2 _ _ _]
  · subst h1
    subst h2
    rw [mCheck4_pass MAGIC (by decide) _ _ _]
    rw [mCheck2_pass LIBRARY_MODULE_CONFIG (by decide) _ _ _]
    rw [mCheck2_fail MAJOR_VERSION ma hma h3 _ _ _]
  · subst h1
    subst h2
    subst h3
    rw [mCheck4_pass MAGIC (by decide) _ _ _]
    rw [mCheck2_pass LIBRARY_MODULE_CONFIG (by decide) _ _ _]
    rw [mCheck2_pass MAJOR_VERSION (by decide) _ _ _]
    rw [mCheck2_fail MINOR_VERSION mi hmi h4 _ _ _]

/-- Counterexample to claim C8 as stated: a wrong magic (first check) and
a wrong minor version (fourth check) produce the identical
`JIGSAW_ERROR_BAD_CONFIG` error, so the error returned by `load_config`
does not distinguish a "bad header" failure from a "bad config" failure
according to which check failed (`JIGSAW_ERROR_BAD_FILE_HEADER` is never
returned by it). -/
theorem load_config_header_error_counterexample :
    load_config (encInt 0 ++ encShort 2 ++ encShort 0 ++ encShort 1) =
      some (Except.error JIGSAW_ERROR_BAD_CONFIG) ∧
    load_config (encInt MAGIC ++ encShort 2 ++ encShort 0 ++ encShort 99) =
      some (Except.error JIGSAW_ERROR_BAD_CONFIG) ∧
    JIGSAW_ERROR_BAD_CONFIG ≠ JIGSAW_ERROR_BAD_FILE_HEADER :=
  ⟨rfl, rfl, by decide⟩

theorem load_config_bad_header_witness :
    ((0 : Nat) < 4294967296 ∧ (0 : Nat) ≠ MAGIC) ∧
    load_config (encInt 0 ++ encShort 2 ++ encShort 0 ++ encShort 1 ++ []) =
      some (Except.error JIGSAW_ERROR_BAD_CONFIG) :=
  ⟨⟨by decide, by decide⟩,
   load_config_bad_header 0 2 0 1 [] (by decide) (by decide) (by decide) (by decide)
     (Or.inl ⟨by decide, rfl, rfl, rfl⟩)⟩

end Jigsaw
